import Mathlib

/-!
Verification of the caching / identity-resolution layer of
`pGroupCohomology/factory.py` (package `p_group_cohomology`).

The Python source is shallowly embedded: pure fragments become Lean
functions, the process-wide option dictionary and the file system become
explicit state that is threaded through the functions, and calls into the
GAP group backend (isomorphism tests, group orders, ...) become oracle
parameters.  Every definition follows the corresponding Python function
line by line; the doc comment of each definition names the function and
the line range it embeds.
-/

namespace PGroupCohomology

/-! ## Group keys and cache keys

`create_group_key` (factory.py, lines 817-945) produces either a pair of
integers `(order, index)` (an address in the SmallGroups catalogue) or a
one-element tuple holding a normalized string presentation of a
permutation group.  We model the two shapes as one inductive type.
-/

/-- A group key, as produced by `CohomologyRingFactory.create_group_key`:
either a SmallGroups address `(q, n)` (a 2-tuple of integers) or a
one-element tuple `(s,)` with a string presentation of a permutation
group. -/

inductive GroupKey where
  | addr (q n : Nat)
  | pres (s : String)
deriving DecidableEq, Repr

/-- The Python `len` of the group-key tuple: `(q, n)` has length 2,
`(s,)` has length 1. -/

def GroupKey.pyLen : GroupKey → Nat
  | .addr _ _ => 2
  | .pres _ => 1

/-- A cache key of a cohomology ring.  Prime-power groups use the 2-tuple
`(KEY, storage-location)` (factory.py line 1189 / 1303); the code of
`_IsKeyEquivalent` additionally handles 3-tuples `(KEY, stem, subkey)`;
the non-prime-power case builds the 4-tuple `(KEY, GStem, HP._key, pr)`
(factory.py line 1986). -/

inductive CacheKey where
  | pKey (g : GroupKey) (location : String)
  | k3 (g : GroupKey) (stem : String) (sub : CacheKey)
  | mKey (g : GroupKey) (stem : String) (sub : CacheKey) (p : Nat)
deriving DecidableEq, Repr

/-- The Python `len` of the cache-key tuple. -/

def CacheKey.pyLen : CacheKey → Nat
  | .pKey _ _ => 2
  | .k3 _ _ _ => 3
  | .mKey _ _ _ _ => 4

/-- The leading component `k[0]` of a cache key: the group key. -/

def CacheKey.head : CacheKey → GroupKey
  | .pKey g _ => g
  | .k3 g _ _ => g
  | .mKey g _ _ _ => g

/-- The top-level classification computed by `_IsKeyEquivalent`
(factory.py lines 2419-2433) for the leading group keys: `2` when the
keys are literally equal, otherwise `1` when the canonical-isomorphism
test (the oracle `iso`) succeeds on the two groups the keys determine,
and `0` otherwise. -/

def topSimilarity (iso : GroupKey → GroupKey → Bool) (g1 g2 : GroupKey) : Nat :=
  if g1 = g2 then 2 else if iso g1 g2 then 1 else 0

/-- Embedding of `_IsKeyEquivalent` (factory.py lines 2342-2436).
Output: `0` = essentially different, `1` = equivalent, `2` = equal up to
file location.  The code first compares tuple lengths (line 2417), then
classifies the leading group keys (lines 2419-2433, here
`topSimilarity`; a failed isomorphism test returns `0` at once), and
finally recurses into `k1[-1]` when and only when the tuples have length
3 (lines 2434-2435). -/

def _IsKeyEquivalent (iso : GroupKey → GroupKey → Bool) : CacheKey → CacheKey → Nat
  | .k3 g1 _ sub1, .k3 g2 _ sub2 =>
    -- both tuples have length 3, so the length test at line 2417 passes and
    -- the recursion at lines 2434-2435 fires
    let similarity := topSimilarity iso g1 g2
    if similarity = 0 then 0 else min similarity (_IsKeyEquivalent iso sub1 sub2)
  | k1, k2 =>
    -- tuples that are not both of length 3: the result is `0` on a length
    -- mismatch (lines 2417-2418) and the leading classification otherwise
    -- (`topSimilarity` already returns `0` when line 2430 returns `0`)
    if k1.pyLen ≠ k2.pyLen then 0 else topSimilarity iso k1.head k2.head

/-- A canonical-isomorphism oracle that always fails; used to make
concrete evaluations of `_IsKeyEquivalent` closed terms.  (The
evaluations below never actually consult the oracle.) -/

def isoNever : GroupKey → GroupKey → Bool := fun _ _ => false



/-! ## The composite-key consistency check after ring assembly

`CohomologyRingFactory.__call__`, factory.py lines 2017-2027: after the
Ring Engine (`MODCOHO.__init__`) assembled a ring for a non-prime-power
group, the stored key `OUT._key` is compared with the composite
`CacheKey` the ring was constructed from.
-/

/-- Python `''.join([t.strip() for t in s.split()])` (factory.py line
2019): split at whitespace, strip each piece, concatenate — i.e. delete
every whitespace character. -/

def stripAllWhitespace (s : String) : String :=
  String.join ((s.split (fun c => c.isWhitespace)).map String.trim)

/-- Replace the leading group key of a cache key (the assignment
`tmpKey[0] = (GKEY,)` at factory.py line 2021). -/

def CacheKey.withHead : CacheKey → GroupKey → CacheKey
  | .pKey _ l, g => .pKey g l
  | .k3 _ s sub, g => .k3 g s sub
  | .mKey _ s sub p, g => .mKey g s sub p

/-- The normalization step of factory.py lines 2018-2022: if the leading
group key is a one-element tuple (a presentation string), delete the
whitespace in the string; SmallGroups addresses are left untouched. -/

def normalizeKeyHead (k : CacheKey) : CacheKey :=
  match k.head with
  | .pres s => k.withHead (.pres (stripAllWhitespace s))
  | .addr _ _ => k

/-- Result of the key check of factory.py lines 2017-2027: either the
ring's (possibly normalized) key together with the flag telling whether
`safe_save` was invoked to persist the normalized ring, or the fatal
`RuntimeError("Cache keys are corrupted")`. -/

inductive KeyCheckResult where
  | ok (key : CacheKey) (persisted : Bool)
  | cacheKeysCorrupted
deriving DecidableEq, Repr

/-- Embedding of factory.py lines 2017-2027: when the assembled ring's
stored key `outKey` differs from the composite `cacheKey`, the leading
presentation string (if any) is whitespace-normalized; if the keys still
differ a `RuntimeError("Cache keys are corrupted")` is raised, otherwise
the ring is saved to disk (`safe_save`). -/

def modcohoKeyCheck (cacheKey outKey : CacheKey) : KeyCheckResult :=
  if outKey ≠ cacheKey then
    let outKey' := normalizeKeyHead outKey
    if outKey' ≠ cacheKey then .cacheKeysCorrupted
    else .ok outKey' true
  else .ok outKey false



/-! ## The symlink mirror `_symlink_to_database`

factory.py lines 228-292.  The read-only archive (`publ`) is a directory
tree; every entry carries the `os.path.realpath` of the archive object
it denotes, modelled as an abstract identifier `rp : Nat`.  The writable
target (`priv`) may contain symbolic links (storing the real path they
resolve to), plain files, and directories.  Directory listings are
association lists keyed by entry name; `os.listdir` yields each name
once, which the well-formedness predicate `srcWF` records.  The path
arguments themselves (and hence the `priv == publ` test of line 263 and
the readability test of line 261, which depend only on the two path
arguments and are identical between repeated runs on the same pair) are
not part of the state.  Every mutating filesystem call of the Python
code is recorded in an operation log.
-/

/-- An entry of the read-only source tree, with the realpath identifier
`os.path.realpath(os.path.join(publ, d))` of line 274. -/

inductive SrcEntry where
  | sfile (rp : Nat)
  | sdir (rp : Nat) (children : List (String × SrcEntry))
deriving Repr

/-- An entry of the writable target tree: a symbolic link (recording the
realpath it resolves to), a plain file, or a directory. -/

inductive TgtEntry where
  | link (rp : Nat)
  | tfile
  | tdir (children : List (String × TgtEntry))
deriving Repr

/-- The realpath identifier of a source entry. -/

def SrcEntry.rp : SrcEntry → Nat
  | .sfile r => r
  | .sdir r _ => r

/-- The mutating filesystem calls issued by `_symlink_to_database`:
`os.unlink` (lines 268, 281, 291), `os.rmdir` (line 289), `os.makedirs`
(line 269) and `os.symlink` (line 292).  Reads (`os.listdir`,
`os.path.islink`, `os.path.realpath`, `os.access`) are not logged: they
verify but do not change the tree. -/

inductive FSOp where
  | unlink
  | rmdir
  | makedirs
  | symlink (rp : Nat)
deriving DecidableEq, Repr

/-- `os.rmdir` at factory.py line 289 raises `OSError` on a non-empty
directory; this is the only failure the embedded state can produce. -/

inductive MirrorError where
  | rmdirFailed
deriving DecidableEq, Repr

/-- First entry of the association list with the given name, if any. -/

def lookupEntry (tcs : List (String × TgtEntry)) (d : String) : Option TgtEntry :=
  match tcs with
  | [] => none
  | (d', v) :: rest => if d' = d then some v else lookupEntry rest d

/-- Remove the first entry with the given name. -/

def removeEntry (tcs : List (String × TgtEntry)) (d : String) :
    List (String × TgtEntry) :=
  match tcs with
  | [] => []
  | (d', v) :: rest => if d' = d then rest else (d', v) :: removeEntry rest d

/-- Replace the first entry with the given name, appending when absent. -/

def setEntry (tcs : List (String × TgtEntry)) (d : String) (v : TgtEntry) :
    List (String × TgtEntry) :=
  match tcs with
  | [] => [(d, v)]
  | (d', v') :: rest => if d' = d then (d, v) :: rest else (d', v') :: setEntry rest d v

/-- Prepend filesystem operations to the log of a successful result. -/

def prependOps (ops0 : List FSOp) :
    Except MirrorError (List (String × TgtEntry) × List FSOp) →
      Except MirrorError (List (String × TgtEntry) × List FSOp)
  | .error e => .error e
  | .ok (tcs, ops) => .ok (tcs, ops0 ++ ops)

mutual

/-- Embedding of one call `_symlink_to_database(publ, priv)` (factory.py
lines 259-292) on the body of the source directory `publ`.  Lines
265-269: if `priv` is not a directory it is unlinked (when present) and
created with `os.makedirs`; then the linking loop (`mirrorChildren`)
runs over `os.listdir(publ)`. -/
def mirrorDir (children : List (String × SrcEntry)) (t : Option TgtEntry) :
    Except MirrorError (TgtEntry × List FSOp) :=
  match t with
  | some (.tdir cs) =>
    match mirrorChildren children cs with
    | .error e => .error e
    | .ok (cs', ops) => .ok (.tdir cs', ops)
  | some (.link _) =>
    match mirrorChildren children [] with
    | .error e => .error e
    | .ok (cs', ops) => .ok (.tdir cs', [.unlink, .makedirs] ++ ops)
  | some .tfile =>
    match mirrorChildren children [] with
    | .error e => .error e
    | .ok (cs', ops) => .ok (.tdir cs', [.unlink, .makedirs] ++ ops)
  | none =>
    match mirrorChildren children [] with
    | .error e => .error e
    | .ok (cs', ops) => .ok (.tdir cs', [.makedirs] ++ ops)

/-- The loop `for d in L0` of factory.py lines 273-292: handle one source
entry (`mirrorStep`), then the rest of the listing. -/
def mirrorChildren (children : List (String × SrcEntry))
    (tcs : List (String × TgtEntry)) :
    Except MirrorError (List (String × TgtEntry) × List FSOp) :=
  match children with
  | [] => .ok (tcs, [])
  | (d, e) :: rest =>
    match mirrorStep d e tcs with
    | .error er => .error er
    | .ok (tcs1, ops1) =>
      match mirrorChildren rest tcs1 with
      | .error er => .error er
      | .ok (tcs2, ops2) => .ok (tcs2, ops1 ++ ops2)

/-- One iteration of the loop, lines 274-281: a link that already
resolves to `os.path.realpath(os.path.join(publ, d))` is kept
(`continue`, line 279); a link to anything else is first unlinked (line
281); anything that is not a link falls through to `mirrorMain`. -/
def mirrorStep (d : String) (e : SrcEntry) (tcs : List (String × TgtEntry)) :
    Except MirrorError (List (String × TgtEntry) × List FSOp) :=
  match lookupEntry tcs d with
  | some (.link r) =>
    if r = e.rp then .ok (tcs, [])
    else prependOps [.unlink] (mirrorMain d e (removeEntry tcs d))
  | some .tfile => mirrorMain d e tcs
  | some (.tdir _) => mirrorMain d e tcs
  | none => mirrorMain d e tcs

/-- Lines 282-292: source subdirectories are mirrored recursively (line
284); for a source file, a directory in the way is removed with
`os.rmdir` (line 289, failing when non-empty), any other existing entry
is unlinked (line 291), and the symlink is created (line 292). -/
def mirrorMain (d : String) (e : SrcEntry) (tcs : List (String × TgtEntry)) :
    Except MirrorError (List (String × TgtEntry) × List FSOp) :=
  match e with
  | .sdir _ cs =>
    match mirrorDir cs (lookupEntry tcs d) with
    | .error er => .error er
    | .ok (sub, ops) => .ok (setEntry tcs d sub, ops)
  | .sfile rp =>
    match lookupEntry tcs d with
    | some (.tdir []) => .ok (setEntry tcs d (.link rp), [.rmdir, .symlink rp])
    | some (.tdir (_ :: _)) => .error .rmdirFailed
    | some .tfile => .ok (setEntry tcs d (.link rp), [.unlink, .symlink rp])
    | some (.link _) => .ok (setEntry tcs d (.link rp), [.unlink, .symlink rp])
    | none => .ok (setEntry tcs d (.link rp), [.symlink rp])

end

/-- `_symlink_to_database` requires its first argument to be a readable
directory (factory.py line 261); on a directory it runs the mirroring
loop. -/

def _symlink_to_database (publ : SrcEntry) (priv : Option TgtEntry) :
    Option (Except MirrorError (TgtEntry × List FSOp)) :=
  match publ with
  | .sfile _ => none
  | .sdir _ cs => some (mirrorDir cs priv)

mutual

/-- `os.listdir` lists each name of a directory exactly once; a source
tree is well formed when every directory's child names are pairwise
distinct, recursively. -/
def srcWF : SrcEntry → Bool
  | .sfile _ => true
  | .sdir _ cs => nodupKeysSrc cs && srcWFList cs

/-- Key distinctness of one directory listing. -/
def nodupKeysSrc : List (String × SrcEntry) → Bool
  | [] => true
  | (d, _) :: rest => !(rest.any (fun p => p.1 == d)) && nodupKeysSrc rest

/-- Well-formedness of every entry of a listing. -/
def srcWFList : List (String × SrcEntry) → Bool
  | [] => true
  | (_, e) :: rest => srcWF e && srcWFList rest

end






/-- Idempotence of `mirrorMain`, as a statement about one source entry:
the entry a successful `mirrorMain` wrote is recognized as already
correct by any later `mirrorStep` that finds it, which then performs no
filesystem operation. -/

def MainIdemP (e : SrcEntry) : Prop :=
  ∀ (d : String) (tcsX tcs1 : List (String × TgtEntry)) (ops : List FSOp)
    (tcs2 : List (String × TgtEntry)),
    srcWF e = true → mirrorMain d e tcsX = .ok (tcs1, ops) →
    lookupEntry tcs2 d = lookupEntry tcs1 d → mirrorStep d e tcs2 = .ok (tcs2, [])

/-- Idempotence of `mirrorStep`, as a statement about one source entry. -/

def StepIdemP (e : SrcEntry) : Prop :=
  ∀ (d : String) (tcs tcs1 : List (String × TgtEntry)) (ops : List FSOp)
    (tcs2 : List (String × TgtEntry)),
    srcWF e = true → mirrorStep d e tcs = .ok (tcs1, ops) →
    lookupEntry tcs2 d = lookupEntry tcs1 d → mirrorStep d e tcs2 = .ok (tcs2, [])

/-- Idempotence of the mirroring loop over one directory listing. -/

def ChildrenIdemP (children : List (String × SrcEntry)) : Prop :=
  ∀ (tcs tcs' : List (String × TgtEntry)) (ops : List FSOp),
    nodupKeysSrc children = true → srcWFList children = true →
    mirrorChildren children tcs = .ok (tcs', ops) →
    mirrorChildren children tcs' = .ok (tcs', [])

/-- Idempotence of one full `_symlink_to_database` call on a directory. -/

def DirIdemP (children : List (String × SrcEntry)) : Prop :=
  ∀ (t : Option TgtEntry) (t' : TgtEntry) (ops : List FSOp),
    nodupKeysSrc children = true → srcWFList children = true →
    mirrorDir children t = .ok (t', ops) → mirrorDir children (some t') = .ok (t', [])




/-! ## The tiered resolver

`_get_p_group_from_cache_or_db` (factory.py lines 1084-1259),
`_get_non_p_group_from_db` (lines 1329-1428) and `from_remote_sources`
(lines 2163-2339).  The process-wide option dictionary `coho_options` is
threaded explicitly; the group backend, the file system and the network
are modelled by the input record: each boolean records the outcome of
one test the Python code performs (`in self._cache`, `os.access`,
whether `load` succeeds, ...), and `fetch` records how the network
interaction inside `from_remote_sources` would end.
-/

/-- The slice of the process-wide `coho_options` dictionary the resolver
reads and writes: the `use_web` flag. -/

structure CohoOptions where
  use_web : Bool
deriving DecidableEq, Repr

/-- The `websource` keyword argument: `None` (default), `False`, or a
URL string. -/

inductive WebsourceArg where
  | default
  | web_false
  | url (s : String)
deriving DecidableEq, Repr

/-- How the network interaction inside `from_remote_sources` ends: a
successfully downloaded ring, an HTTP-404 `URLError`, another
`URLError`, a `ValueError`/`RuntimeError` (including the
`RuntimeError("The requested cohomology ring could not be found in any
repository")` of line 2330), or a user-initiated `KeyboardInterrupt`
during the fetch. -/

inductive FetchResult where
  | success
  | urlError404
  | urlErrorOther
  | valueOrRuntimeError
  | keyboardInterrupt
deriving DecidableEq, Repr

/-- Result of `from_remote_sources`: `skipped` when the function returns
`None` before touching the network (lines 2244-2256), otherwise the
outcome of the attempted fetch. -/

inductive WebOutcome where
  | skipped
  | attempted (r : FetchResult)
deriving DecidableEq, Repr

/-- Embedding of the entry conditions of `from_remote_sources`
(factory.py lines 2242-2259): return `None` when `use_web` is unset
(lines 2244-2245), when no remote sources are configured (lines
2250-2253), or when the passed `websource` string is empty (lines
2255-2256); otherwise access the web (lines 2261 ff., abstracted by the
`fetch` outcome). -/

def from_remote_sources (opts : CohoOptions) (remote_sources : List String)
    (websource : Option String) (fetch : FetchResult) : WebOutcome :=
  if !opts.use_web then .skipped
  else
    match websource with
    | none => if remote_sources.isEmpty then .skipped else .attempted fetch
    | some url => if url.isEmpty then .skipped else .attempted fetch

/-- Where a resolver hit came from. -/

inductive FoundSource where
  | cache
  | workspace
  | localSources
  | web
deriving DecidableEq, Repr

/-- Observable outcome of one resolver call.  `interrupted` would model a
`KeyboardInterrupt` escaping the resolver to its caller; the handlers at
factory.py lines 1244-1245 and 1420-1421 are what decides whether it can
occur. -/

inductive Outcome where
  | found (src : FoundSource)
  | notFound
  | runtimeError (msg : String)
  | ioError
  | valueError (msg : String)
  | interrupted
deriving DecidableEq, Repr

/-- Result of a resolver call: the options dictionary after the call
(the Python function mutates the global `coho_options` in place), the
outcome, the log messages issued by the web tier, and whether the web
was actually accessed. -/

structure ResolveResult where
  opts : CohoOptions
  outcome : Outcome
  log : List String
  webAttempted : Bool
deriving DecidableEq, Repr

/-- Inputs of `_get_p_group_from_cache_or_db`: the group key and stem,
the outcome of each test the code performs against the cache, the file
system and the network, and the keyword arguments. -/

structure PResolveInput where
  key : GroupKey
  gstem : String
  inCache : Bool
  cacheBackingReadable : Bool
  workspaceReadable : Bool
  workspaceLoadOk : Bool
  localPresent : Bool
  localSymlinkOk : Bool
  localLoadOk : Bool
  websource : WebsourceArg
  from_scratch : Bool
  remote_sources : List String
  fetch : FetchResult
  storedCompatible : Bool
deriving DecidableEq, Repr

/-- The checks of factory.py lines 1246-1258 applied to a ring loaded
from a non-memory tier: when the key is a SmallGroups address, the
stored group is compared with the library entry by canonical
isomorphism (oracle outcome `storedCompatible`); a mismatch raises
`ValueError` (line 1256). -/

def postLoadCheck (key : GroupKey) (storedCompatible : Bool) (src : FoundSource) : Outcome :=
  match key with
  | .addr _ _ =>
    if storedCompatible then .found src
    else .valueError "Stored group data incompatible with data in the SmallGroups library"
  | .pres _ => .found src

/-- The message of the `RuntimeError` at factory.py line 1202. -/

def scratchMsgPGroup (root gstem : String) : String :=
  "You requested a computation from scratch. Please remove " ++ (root ++ "/" ++ gstem)

/-- The message of the `RuntimeError` at factory.py line 1390. -/

def scratchMsgNonP (root gstem : String) (pr : Nat) : String :=
  "You requested a computation from scratch. Please remove "
    ++ (root ++ "/H" ++ gstem ++ "mod" ++ toString pr ++ ".sobj")

/-- Embedding of `_get_p_group_from_cache_or_db` (factory.py lines
1169-1259).  Lines 1185-1186: `from_scratch` clears the global
`use_web`.  Tier 1 (lines 1189-1197): a cache hit with readable backing
file is returned; with unreadable backing file the entry is evicted and
resolution continues.  Tier 2 (lines 1198-1211): a readable workspace
file under `from_scratch` raises the stale-data `RuntimeError`,
otherwise it is loaded (`IOError` on a broken file).  Tier 3 (lines
1212-1229): local sources are symlinked and loaded.  Tier 4 (lines
1230-1245): the web repository, with every failure — including
`KeyboardInterrupt` — caught and turned into a miss.  Lines 1246-1258:
post-load validation. -/

def _get_p_group_from_cache_or_db (root : String) (opts : CohoOptions)
    (inp : PResolveInput) : ResolveResult :=
  let opts := if inp.from_scratch then { opts with use_web := false } else opts
  if inp.inCache ∧ inp.cacheBackingReadable then
    { opts := opts, outcome := .found .cache, log := [], webAttempted := false }
  else if inp.workspaceReadable then
    if inp.from_scratch then
      { opts := opts, outcome := .runtimeError (scratchMsgPGroup root inp.gstem),
        log := [], webAttempted := false }
    else if inp.workspaceLoadOk then
      { opts := opts, outcome := postLoadCheck inp.key inp.storedCompatible .workspace,
        log := [], webAttempted := false }
    else
      { opts := opts, outcome := .ioError, log := [], webAttempted := false }
  else if inp.localPresent ∧ ¬inp.from_scratch then
    if ¬inp.localSymlinkOk then
      { opts := opts,
        outcome := .valueError "Can not create a symbolic link to the local sources",
        log := [], webAttempted := false }
    else if inp.localLoadOk then
      { opts := opts, outcome := postLoadCheck inp.key inp.storedCompatible .localSources,
        log := [], webAttempted := false }
    else
      { opts := opts, outcome := .ioError, log := [], webAttempted := false }
  else if inp.websource ≠ .web_false ∧ ¬inp.from_scratch then
    match from_remote_sources opts inp.remote_sources
        (match inp.websource with | .url s => some s | _ => none) inp.fetch with
    | .skipped =>
      { opts := opts, outcome := .notFound, log := [], webAttempted := false }
    | .attempted .success =>
      { opts := opts, outcome := postLoadCheck inp.key inp.storedCompatible .web,
        log := [], webAttempted := true }
    | .attempted .urlError404 =>
      { opts := opts, outcome := .notFound,
        log := ["Cohomology ring can not be found in web repository."],
        webAttempted := true }
    | .attempted .urlErrorOther =>
      { opts := opts, outcome := .notFound,
        log := ["Websource is not available."], webAttempted := true }
    | .attempted .valueOrRuntimeError =>
      { opts := opts, outcome := .notFound,
        log := ["Cohomology ring can not be found in web repository."],
        webAttempted := true }
    | .attempted .keyboardInterrupt =>
      { opts := opts, outcome := .notFound,
        log := ["Access to websource was interrupted."], webAttempted := true }
  else
    { opts := opts, outcome := .notFound, log := [], webAttempted := false }

/-- Inputs of `_get_non_p_group_from_db` (no cache tier: see the NOTE at
factory.py lines 1347-1351). -/

structure NPResolveInput where
  gstem : String
  pr : Nat
  workspaceReadable : Bool
  workspaceLoadOk : Bool
  localPresent : Bool
  localLoadOk : Bool
  websource : WebsourceArg
  from_scratch : Bool
  remote_sources : List String
  fetch : FetchResult
deriving DecidableEq, Repr

/-- Embedding of `_get_non_p_group_from_db` (factory.py lines
1377-1428).  Tier 1 (lines 1387-1399): a readable workspace file under
`from_scratch` raises the stale-data `RuntimeError`.  Tier 2 (lines
1400-1412): local sources.  Tier 3 (lines 1413-1421): the web, with the
bare `except:` of line 1420 turning every failure — including
`KeyboardInterrupt` — into a logged miss.  This function never writes
`use_web`. -/

def _get_non_p_group_from_db (root : String) (opts : CohoOptions)
    (inp : NPResolveInput) : ResolveResult :=
  if inp.workspaceReadable then
    if inp.from_scratch then
      { opts := opts, outcome := .runtimeError (scratchMsgNonP root inp.gstem inp.pr),
        log := [], webAttempted := false }
    else if inp.workspaceLoadOk then
      { opts := opts, outcome := .found .workspace, log := [], webAttempted := false }
    else
      { opts := opts, outcome := .ioError, log := [], webAttempted := false }
  else if inp.localPresent ∧ ¬inp.from_scratch then
    if inp.localLoadOk then
      { opts := opts, outcome := .found .localSources, log := [], webAttempted := false }
    else
      { opts := opts, outcome := .ioError, log := [], webAttempted := false }
  else if inp.websource ≠ .web_false ∧ ¬inp.from_scratch then
    match from_remote_sources opts inp.remote_sources
        (match inp.websource with | .url s => some s | _ => none) inp.fetch with
    | .skipped =>
      { opts := opts, outcome := .notFound, log := [], webAttempted := false }
    | .attempted .success =>
      { opts := opts, outcome := .found .web, log := [], webAttempted := true }
    | .attempted _ =>
      { opts := opts, outcome := .notFound,
        log := ["No cohomology ring found in web repository."], webAttempted := true }
  else
    { opts := opts, outcome := .notFound, log := [], webAttempted := false }

/-- Embedding of factory.py lines 1727-1728 in
`CohomologyRingFactory.__call__`: a `from_scratch` request clears the
`use_web` option in the process-wide dictionary before resolution
starts. -/

def cohomologyRingCallOptions (opts : CohoOptions) (from_scratch : Bool) : CohoOptions :=
  if from_scratch then { opts with use_web := false } else opts

/-- Embedding of the prime-power dispatch of
`CohomologyRingFactory.__call__` (factory.py lines 1776-1781): when the
group order is below 128 the `websource` argument handed to the
resolver is forced to `False`. -/

def cohomologyRingCallPP (root : String) (opts : CohoOptions) (q : Nat)
    (inp : PResolveInput) : ResolveResult :=
  let inp := if q < 128 then { inp with websource := .web_false } else inp
  _get_p_group_from_cache_or_db root opts inp

/-- A resolver input describing the situation of claim C2: nothing in
the cache, workspace or local sources, web access enabled, and the user
pressing Ctrl-c during the remote fetch. -/

def interruptedFetchInput : PResolveInput :=
  { key := .addr 8 3, gstem := "8gp3", inCache := false, cacheBackingReadable := false,
    workspaceReadable := false, workspaceLoadOk := false, localPresent := false,
    localSymlinkOk := false, localLoadOk := false, websource := .default,
    from_scratch := false, remote_sources := ["http://cohomology.uni-jena.de/db/"],
    fetch := .keyboardInterrupt, storedCompatible := true }





/-- A prime-power resolver input with `from_scratch` requested while the
workspace already holds readable data. -/

def scratchConflictInput : PResolveInput :=
  { interruptedFetchInput with from_scratch := true, workspaceReadable := true }

/-- A non-prime-power resolver input with `from_scratch` requested while
the workspace already holds readable data. -/

def scratchConflictInputNP : NPResolveInput :=
  { gstem := "720gp763", pr := 2, workspaceReadable := true, workspaceLoadOk := true,
    localPresent := false, localLoadOk := false, websource := .default,
    from_scratch := true, remote_sources := [], fetch := .success }






/-! ## Argument checking

`CohomologyRingFactory.check_arguments` (factory.py lines 939-1025) and
the head of `__call__` (lines 1730-1737), where `check_arguments` runs
before `create_group_key`.
-/

/-- A group object held in the GAP interface; only the data the embedded
fragments read. -/

structure GapGroup where
  order : Nat
deriving DecidableEq, Repr

/-- The Group Backend operations `check_arguments` calls:
`gap.NumberSmallGroups` (`none` models the `RuntimeError` for an
unavailable order), `gap.SmallGroup`, `canonicalIsomorphism` against a
SmallGroups entry, and `admissibleGroup` (the minimal-generating-set
verification, `none` modelling `fail`). -/

structure GroupBackend where
  numberSmallGroups : Nat → Option Nat
  smallGroup : Nat → Nat → GapGroup
  canonicalIsomorphismToSmall : GapGroup → Nat × Nat → Bool
  admissibleGroup : GapGroup → Option GapGroup

/-- The error classes the embedded factory fragments raise. -/

inductive FactoryError where
  | valueError (msg : String)
deriving DecidableEq, Repr

/-- The one or two positional arguments of the factory call: a
SmallGroups address `(q, n)` or a group in the GAP interface (the arity
check of factory.py lines 986-987 is absorbed by this type). -/

inductive CohoArgs where
  | smallGroupAddr (q n : Nat)
  | gapGroup (g : GapGroup)
deriving Repr

/-- Sage's `Integer.is_prime_power` on a natural number: `q = p^k` for a
prime `p` and `k ≥ 1`; in particular `1` is not a prime power. -/

def isPrimePowerNat (q : Nat) : Bool :=
  decide (2 ≤ q) && (q.minFac ^ (Nat.log q.minFac q) == q)

/-- Embedding of `check_arguments` (factory.py lines 986-1025).
Address case (lines 988-999): an incompatible `GroupId` hint and an
out-of-range index are `ValueError`s.  Explicit-group case (lines
1000-1025): a `GroupId` hint failing the canonical-isomorphism test is
a `ValueError` (lines 1005-1006); the order is the hint's order or is
computed (lines 1007-1011); **order 1 is rejected** (lines 1013-1014:
`"We don't consider the trivial group"`); for prime-power orders
without `minimal_generators` the generator list must start with a
minimal generating set (lines 1015-1025). -/

def check_arguments (B : GroupBackend) (args : CohoArgs) (minimal_generators : Bool)
    (GroupId : Option (Nat × Nat)) : Except FactoryError (Nat × GapGroup) :=
  match args with
  | .smallGroupAddr q n =>
    if (match GroupId with
        | some gid => decide (gid ≠ (q, n))
        | none => false) then
      .error (.valueError "GroupId incompatible with the given SmallGroups entry")
    else
      match B.numberSmallGroups q with
      | none => .error (.valueError "SmallGroups library not available for this order")
      | some max_n =>
        if 1 ≤ n ∧ n ≤ max_n then .ok (q, B.smallGroup q n)
        else .error (.valueError "Second argument out of range")
  | .gapGroup g =>
    if (match GroupId with
        | some gid => !(B.canonicalIsomorphismToSmall g gid)
        | none => false) then
      .error (.valueError
        "The given group generators are not canonically isomorphic to the SmallGroup")
    else
      let q := match GroupId with | some gid => gid.1 | none => g.order
      if q = 1 then .error (.valueError "We don't consider the trivial group")
      else if minimal_generators || !(isPrimePowerNat q) then .ok (q, g)
      else
        match B.admissibleGroup g with
        | some range => .ok (q, range)
        | none =>
          .error (.valueError "The first generators of the group must form a minimal generating set")

/-- The head of `__call__` (factory.py lines 1736-1737):
`check_arguments` runs first; only on success is `create_group_key`
invoked (abstracted by the oracle `createKey`, since it only performs
read-only GAP queries). -/

def cohomologyRingCallCheckPhase (B : GroupBackend) (createKey : GapGroup → GroupKey)
    (args : CohoArgs) (minimal_generators : Bool) (GroupId : Option (Nat × Nat)) :
    Except FactoryError GroupKey :=
  match check_arguments B args minimal_generators GroupId with
  | .error e => .error e
  | .ok (_, h) => .ok (createKey h)


/-- A backend with no catalogue knowledge, for concrete evaluations. -/

def emptyBackend : GroupBackend :=
  { numberSmallGroups := fun _ => none, smallGroup := fun _ _ => ⟨1⟩,
    canonicalIsomorphismToSmall := fun _ _ => false,
    admissibleGroup := fun _ => none }


/-! ## Consistency checks for a user-supplied intermediate subgroup

`CohomologyRingFactory.__call__`, factory.py lines 1818-1853: after the
database lookup missed, and before any construction, the user-supplied
`Subgroup` and `SylowSubgroup` are validated.
-/

/-- The outcomes of the group-backend queries the checks of factory.py
lines 1832-1850 perform on the user-supplied subgroups. -/

structure SubgroupCheckInput where
  subgroupGiven : Bool
  isSubgroup : Bool
  indexGP : Nat
  sylowGiven : Bool
  sylowIsSubgroup : Bool
  sylowIndex : Nat
  sylowOrder : Nat
  sylowInSubgroup : Bool
deriving DecidableEq, Repr

/-- Embedding of factory.py lines 1831-1850.  Lines 1832-1836: a given
`Subgroup` must be a subgroup of the target, and its index must not be
divisible by the prime (`"The given subgroup must contain a Sylow
%d-subgroup"`).  Lines 1841-1850: the analogous checks for a given
`SylowSubgroup`. -/

def checkGivenSubgroups (pr : Nat) (inp : SubgroupCheckInput) : Except FactoryError Unit :=
  if inp.subgroupGiven ∧ ¬inp.isSubgroup then
    .error (.valueError "The given subgroup is in fact not a subgroup")
  else if inp.subgroupGiven ∧ pr ∣ inp.indexGP then
    .error (.valueError
      ("The given subgroup must contain a Sylow " ++ toString pr ++ "-subgroup"))
  else if inp.sylowGiven ∧ ¬inp.sylowIsSubgroup then
    .error (.valueError "The given Sylow subgroup is in fact not a subgroup")
  else if inp.sylowGiven ∧ pr ∣ inp.sylowIndex then
    .error (.valueError
      ("The index of the given Sylow " ++ toString pr ++ "-subgroup is not coprime to "
        ++ toString pr))
  else if inp.sylowGiven ∧ ¬pr ∣ inp.sylowOrder then
    .error (.valueError
      ("The given Sylow subgroup's order is indivisible by " ++ toString pr))
  else if inp.sylowGiven ∧ inp.subgroupGiven ∧ ¬inp.sylowInSubgroup then
    .error (.valueError "The given subgroup must contain the given Sylow subgroup")
  else
    .ok ()

/-- The from-scratch construction path of `__call__` for a
non-prime-power group (factory.py lines 1818 ff.): the subgroup checks
run first; the actual construction (lines 1855 ff.) is an opaque
continuation that is reached only when every check passed. -/

def nonPrimePowerFromScratch (pr : Nat) (inp : SubgroupCheckInput)
    (construct : Unit → Except FactoryError Unit) : Except FactoryError Unit :=
  match checkGivenSubgroups pr inp with
  | .error e => .error e
  | .ok _ => construct ()


/-- A user-supplied genuine subgroup whose index 6 in the target group
is divisible by the prime 2. -/

def badSubgroupInput : SubgroupCheckInput :=
  { subgroupGiven := true, isSubgroup := true, indexGP := 6, sylowGiven := false,
    sylowIsSubgroup := false, sylowIndex := 0, sylowOrder := 0,
    sylowInSubgroup := false }


/-! ## The subgroup-tower loop of `from_subgroup_tower`

factory.py lines 1562-1602.  After the nesting checks (the `for` loop at
line 1589, whose loop variable `i` ends at `len(args)-2`), the code at
line 1595 reads `while i in range(1, len(args)-1)` — and the loop body
(lines 1596-1601) never reassigns `i`.  The functions below embed
exactly the sequence of indices the middle-step loop processes, with an
explicit fuel so that non-termination is expressible: `none` means the
loop is still running when the fuel runs out, for every fuel.
-/

/-- One execution of the `while` loop of factory.py line 1595 for a
tower of `n` groups: the condition is `1 <= i < n-1`, the body replays
the pairwise construction for `args[i]` (recorded by appending `i` to
the trace) and leaves `i` unchanged. -/

def fromSubgroupTowerWhile (n i : Nat) : Nat → Option (List Nat)
  | 0 => none
  | fuel + 1 =>
    if 1 ≤ i ∧ i < n - 1 then
      match fromSubgroupTowerWhile n i fuel with
      | none => none
      | some l => some (i :: l)
    else
      some []

/-- The middle-step trace of `from_subgroup_tower` on a tower of `n ≥ 2`
groups: entering the `while` at line 1595, the loop variable still holds
the last value of the `for` loop at line 1589, namely `n - 2`. -/

def fromSubgroupTowerMiddleSteps (n fuel : Nat) : Option (List Nat) :=
  fromSubgroupTowerWhile (n := n) (i := n - 2) fuel


/-! ## Theorems -/


/-- C1 counterexample: two composite cache keys of the general-group
(4-tuple) form whose embedded subgroup cache keys classify as DIFFERENT
(`0`), yet the comparator classifies the composite keys as EQUAL (`2`),
not DIFFERENT.  The recursion of `_IsKeyEquivalent` fires only for
3-tuples (line 2434), and the composite keys built at factory.py line
1986 are 4-tuples, so the embedded subgroup key is ignored. -/
theorem isKeyEquivalent_mKey_not_monotone :
    _IsKeyEquivalent isoNever
        (.pKey (.addr 4 1) "w/4gp1/dat/State")
        (.mKey (.addr 4 1) "4gp1" (.pKey (.addr 2 1) "w/2gp1/dat/State") 2) = 0
    ∧ _IsKeyEquivalent isoNever
        (.mKey (.addr 8 3) "8gp3" (.pKey (.addr 4 1) "w/4gp1/dat/State") 2)
        (.mKey (.addr 8 3) "8gp3"
          (.mKey (.addr 4 1) "4gp1" (.pKey (.addr 2 1) "w/2gp1/dat/State") 2) 2) = 2 := by
  constructor <;> decide

/-- C1 (amended): the minimum rule holds precisely for 3-element
composite keys — there the final classification is the minimum of the
top-level classification and the recursively computed classification of
the embedded key, so an embedded DIFFERENT forces DIFFERENT.  For the
4-element composite keys actually constructed in the general-group case
(factory.py line 1986) the comparator never recurses: the classification
equals the top-level classification and ignores the embedded subgroup
key and the prime entirely. -/
theorem isKeyEquivalent_k3_min_mKey_top :
    (∀ (iso : GroupKey → GroupKey → Bool) (g1 g2 : GroupKey) (s1 s2 : String)
        (sub1 sub2 : CacheKey),
      _IsKeyEquivalent iso (.k3 g1 s1 sub1) (.k3 g2 s2 sub2)
        = min (topSimilarity iso g1 g2) (_IsKeyEquivalent iso sub1 sub2))
    ∧ (∀ (iso : GroupKey → GroupKey → Bool) (g1 g2 : GroupKey) (s1 s2 : String)
        (sub1 sub2 : CacheKey) (p1 p2 : Nat),
      _IsKeyEquivalent iso (.mKey g1 s1 sub1 p1) (.mKey g2 s2 sub2 p2)
        = topSimilarity iso g1 g2) := by
  constructor
  · intro iso g1 g2 s1 s2 sub1 sub2
    rw [_IsKeyEquivalent]
    split
    · next h => rw [h]; simp
    · rfl
  · intro iso g1 g2 s1 s2 sub1 sub2 p1 p2
    rw [_IsKeyEquivalent]
    · simp [CacheKey.pyLen, CacheKey.head]
    · rintro _ _ _ _ _ _ ⟨⟩

/-- C4: a mismatch between the assembled ring's stored key and the
composite cache key it was constructed from is fatal (the
`RuntimeError` of line 2024) unless deleting the whitespace of the
group-presentation string makes the keys equal, in which case the
normalized ring is persisted to disk (`safe_save` at line 2027); no
other repair ever happens. -/
theorem modcoho_key_mismatch_fatal_or_whitespace (ck outKey : CacheKey)
    (hne : outKey ≠ ck) :
    (normalizeKeyHead outKey ≠ ck ∧ modcohoKeyCheck ck outKey = .cacheKeysCorrupted)
    ∨ (normalizeKeyHead outKey = ck ∧ modcohoKeyCheck ck outKey = .ok ck true) := by
  unfold modcohoKeyCheck
  by_cases h : normalizeKeyHead outKey = ck
  · right
    refine ⟨h, ?_⟩
    simp [hne, h]
  · left
    refine ⟨h, ?_⟩
    simp [hne, h]

/-- C4 witness: a stored key differing from its cache key only by a blank
inside the presentation string is repaired by normalization and
persisted; the theorem applies at this concrete input. -/
theorem modcoho_key_mismatch_fatal_or_whitespace_witness :
    (CacheKey.mKey (.pres "Group([ (1,2) ])") "G" (.pKey (.addr 2 1) "w/2gp1/dat/State") 2
        ≠ CacheKey.mKey (.pres "Group([(1,2)])") "G" (.pKey (.addr 2 1) "w/2gp1/dat/State") 2)
    ∧ ((normalizeKeyHead
          (.mKey (.pres "Group([ (1,2) ])") "G" (.pKey (.addr 2 1) "w/2gp1/dat/State") 2)
        ≠ CacheKey.mKey (.pres "Group([(1,2)])") "G" (.pKey (.addr 2 1) "w/2gp1/dat/State") 2
        ∧ modcohoKeyCheck
            (.mKey (.pres "Group([(1,2)])") "G" (.pKey (.addr 2 1) "w/2gp1/dat/State") 2)
            (.mKey (.pres "Group([ (1,2) ])") "G" (.pKey (.addr 2 1) "w/2gp1/dat/State") 2)
          = .cacheKeysCorrupted)
      ∨ (normalizeKeyHead
            (.mKey (.pres "Group([ (1,2) ])") "G" (.pKey (.addr 2 1) "w/2gp1/dat/State") 2)
          = CacheKey.mKey (.pres "Group([(1,2)])") "G" (.pKey (.addr 2 1) "w/2gp1/dat/State") 2
        ∧ modcohoKeyCheck
            (.mKey (.pres "Group([(1,2)])") "G" (.pKey (.addr 2 1) "w/2gp1/dat/State") 2)
            (.mKey (.pres "Group([ (1,2) ])") "G" (.pKey (.addr 2 1) "w/2gp1/dat/State") 2)
          = .ok (.mKey (.pres "Group([(1,2)])") "G" (.pKey (.addr 2 1) "w/2gp1/dat/State") 2)
              true)) :=
  ⟨by decide, modcoho_key_mismatch_fatal_or_whitespace _ _ (by decide)⟩

theorem lookupEntry_setEntry_self (tcs : List (String × TgtEntry)) (d : String)
    (v : TgtEntry) : lookupEntry (setEntry tcs d v) d = some v := by
  induction tcs with
  | nil => simp [setEntry, lookupEntry]
  | cons hd tl ih =>
    obtain ⟨d0, v0⟩ := hd
    by_cases hdd : d0 = d <;> simp [setEntry, lookupEntry, hdd, ih]

theorem lookupEntry_setEntry_ne (tcs : List (String × TgtEntry)) (d : String)
    (v : TgtEntry) (d' : String) (h : d' ≠ d) :
    lookupEntry (setEntry tcs d v) d' = lookupEntry tcs d' := by
  induction tcs with
  | nil => simp [setEntry, lookupEntry, Ne.symm h]
  | cons hd tl ih =>
    obtain ⟨d0, v0⟩ := hd
    by_cases hdd : d0 = d
    · subst hdd
      simp [setEntry, lookupEntry, Ne.symm h]
    · by_cases hdd' : d0 = d' <;> simp [setEntry, lookupEntry, hdd, hdd', h, ih]

theorem lookupEntry_removeEntry_ne (tcs : List (String × TgtEntry)) (d d' : String)
    (h : d' ≠ d) : lookupEntry (removeEntry tcs d) d' = lookupEntry tcs d' := by
  induction tcs with
  | nil => simp [removeEntry, lookupEntry]
  | cons hd tl ih =>
    obtain ⟨d0, v0⟩ := hd
    by_cases hdd : d0 = d
    · subst hdd
      simp [removeEntry, lookupEntry, Ne.symm h]
    · by_cases hdd' : d0 = d' <;> simp [removeEntry, lookupEntry, hdd, hdd', h, ih]

theorem setEntry_of_lookup_eq (tcs : List (String × TgtEntry)) (d : String)
    (v : TgtEntry) (h : lookupEntry tcs d = some v) : setEntry tcs d v = tcs := by
  induction tcs with
  | nil => simp [lookupEntry] at h
  | cons hd tl ih =>
    obtain ⟨d0, v0⟩ := hd
    by_cases hdd : d0 = d
    · subst hdd
      simp [lookupEntry] at h
      simp [setEntry, h]
    · simp [lookupEntry, hdd] at h
      simp [setEntry, hdd, ih h]

/-- A successful `mirrorMain d e tcs` only touches the entry named `d`. -/
theorem mirrorMain_preserves (d : String) (e : SrcEntry)
    (tcs tcs1 : List (String × TgtEntry)) (ops : List FSOp)
    (h : mirrorMain d e tcs = .ok (tcs1, ops)) (d' : String) (hne : d' ≠ d) :
    lookupEntry tcs1 d' = lookupEntry tcs d' := by
  cases e with
  | sdir rp cs =>
    rw [mirrorMain] at h
    split at h
    · exact Except.noConfusion h
    · simp only [Except.ok.injEq, Prod.mk.injEq] at h
      obtain ⟨h1, h2⟩ := h
      rw [← h1, lookupEntry_setEntry_ne _ _ _ _ hne]
  | sfile rp =>
    rw [mirrorMain] at h
    split at h <;>
      first
      | exact Except.noConfusion h
      | (simp only [Except.ok.injEq, Prod.mk.injEq] at h
         obtain ⟨h1, h2⟩ := h
         rw [← h1, lookupEntry_setEntry_ne _ _ _ _ hne])

/-- A successful `mirrorStep d e tcs` only touches the entry named `d`. -/
theorem mirrorStep_preserves (d : String) (e : SrcEntry)
    (tcs tcs1 : List (String × TgtEntry)) (ops : List FSOp)
    (h : mirrorStep d e tcs = .ok (tcs1, ops)) (d' : String) (hne : d' ≠ d) :
    lookupEntry tcs1 d' = lookupEntry tcs d' := by
  rw [mirrorStep] at h
  split at h
  · split at h
    · simp only [Except.ok.injEq, Prod.mk.injEq] at h
      obtain ⟨h1, h2⟩ := h
      rw [← h1]
    · rw [prependOps.eq_def] at h
      split at h
      · exact Except.noConfusion h
      · next tcsM opsM heqM =>
        simp only [Except.ok.injEq, Prod.mk.injEq] at h
        obtain ⟨h1, h2⟩ := h
        rw [← h1, mirrorMain_preserves _ _ _ _ _ heqM d' hne,
          lookupEntry_removeEntry_ne _ _ _ hne]
  · exact mirrorMain_preserves _ _ _ _ _ h d' hne
  · exact mirrorMain_preserves _ _ _ _ _ h d' hne
  · exact mirrorMain_preserves _ _ _ _ _ h d' hne

/-- A successful mirroring pass only touches entries named by the source
listing. -/
theorem mirrorChildren_preserves (children : List (String × SrcEntry))
    (tcs tcs2 : List (String × TgtEntry)) (ops : List FSOp)
    (h : mirrorChildren children tcs = .ok (tcs2, ops)) (d : String)
    (hd : ∀ p ∈ children, p.1 ≠ d) : lookupEntry tcs2 d = lookupEntry tcs d := by
  revert h hd
  induction children generalizing tcs ops with
  | nil =>
    intro h hd
    rw [mirrorChildren] at h
    simp only [Except.ok.injEq, Prod.mk.injEq] at h
    obtain ⟨h1, h2⟩ := h
    rw [← h1]
  | cons hd0 rest ih =>
    obtain ⟨d0, e⟩ := hd0
    intro h hd
    rw [mirrorChildren] at h
    split at h
    · exact Except.noConfusion h
    · next tcs1 ops1 heq1 =>
      split at h
      · exact Except.noConfusion h
      · next tcs3 ops2 heq2 =>
        simp only [Except.ok.injEq, Prod.mk.injEq] at h
        obtain ⟨h1, h2⟩ := h
        subst h1
        rw [ih _ _ heq2 (fun p hp => hd p (List.mem_cons_of_mem _ hp)),
          mirrorStep_preserves _ _ _ _ _ heq1 d
            (Ne.symm (hd (d0, e) (List.mem_cons_self _ _)))]

/-- The mirror of a source directory is always a directory. -/
theorem mirrorDir_shape (children : List (String × SrcEntry)) (t : Option TgtEntry)
    (t' : TgtEntry) (ops : List FSOp) (h : mirrorDir children t = .ok (t', ops)) :
    ∃ cs', t' = .tdir cs' := by
  rcases t with _ | te
  · rw [mirrorDir] at h
    split at h
    · exact absurd h (by simp)
    · simp only [Except.ok.injEq, Prod.mk.injEq] at h
      exact ⟨_, h.1.symm⟩
  · cases te <;>
      · rw [mirrorDir] at h
        split at h
        · exact absurd h (by simp)
        · simp only [Except.ok.injEq, Prod.mk.injEq] at h
          exact ⟨_, h.1.symm⟩

theorem any_key_eq_false {d : String} {rest : List (String × SrcEntry)}
    (h : rest.any (fun p => p.1 == d) = false) : ∀ p ∈ rest, p.1 ≠ d := by
  intro p hp hpeq
  have : rest.any (fun p => p.1 == d) = true :=
    List.any_eq_true.2 ⟨p, hp, by simp [hpeq]⟩
  rw [h] at this
  exact absurd this (by simp)

/-- Unfolding lemma for one successful iteration of the mirroring loop. -/
theorem mirrorChildren_cons_eq (d : String) (e : SrcEntry)
    (rest : List (String × SrcEntry)) (tcs tcs1 tcs2 : List (String × TgtEntry))
    (ops1 ops2 : List FSOp)
    (h1 : mirrorStep d e tcs = .ok (tcs1, ops1))
    (h2 : mirrorChildren rest tcs1 = .ok (tcs2, ops2)) :
    mirrorChildren ((d, e) :: rest) tcs = .ok (tcs2, ops1 ++ ops2) := by
  rw [mirrorChildren, h1]
  show (match mirrorChildren rest tcs1 with
    | Except.error er => Except.error er
    | Except.ok (tcs2, ops2) => Except.ok (tcs2, ops1 ++ ops2)) = _
  rw [h2]

/-- Simultaneous strong induction on the size of the source data: all
four idempotence statements hold. -/
theorem mirror_idem_aux (n : Nat) :
    (∀ e : SrcEntry, sizeOf e ≤ n → MainIdemP e ∧ StepIdemP e)
    ∧ (∀ children : List (String × SrcEntry), sizeOf children ≤ n →
        ChildrenIdemP children ∧ DirIdemP children) := by
  induction n using Nat.strong_induction_on with
  | _ n IH =>
  constructor
  · intro e hsize
    have hmain : MainIdemP e := by
      intro d tcsX tcs1 ops tcs2 hwf h hl
      cases e with
      | sfile rp =>
        rw [mirrorMain] at h
        have hcur : lookupEntry tcs2 d = some (.link rp) := by
          split at h <;>
            first
            | exact Except.noConfusion h
            | (simp only [Except.ok.injEq, Prod.mk.injEq] at h
               obtain ⟨ht, _⟩ := h
               rw [hl, ← ht, lookupEntry_setEntry_self])
        rw [mirrorStep, hcur]
        simp [SrcEntry.rp]
      | sdir rp cs =>
        rw [mirrorMain] at h
        split at h
        · exact Except.noConfusion h
        · next sub ops0 heq =>
          simp only [Except.ok.injEq, Prod.mk.injEq] at h
          obtain ⟨ht, _⟩ := h
          subst ht
          obtain ⟨subcs, rfl⟩ := mirrorDir_shape cs _ sub ops0 heq
          rw [srcWF] at hwf
          simp only [Bool.and_eq_true] at hwf
          obtain ⟨hnodup, hwfl⟩ := hwf
          have hcs : sizeOf cs < n := by
            simp only [SrcEntry.sdir.sizeOf_spec] at hsize
            omega
          have hdir : DirIdemP cs := ((IH (sizeOf cs) hcs).2 cs le_rfl).2
          have hsub : lookupEntry tcs2 d = some (.tdir subcs) := by
            rw [hl, lookupEntry_setEntry_self]
          have hidem := hdir (lookupEntry tcsX d) (.tdir subcs) ops0 hnodup hwfl heq
          have hmain2 : mirrorMain d (.sdir rp cs) tcs2 = .ok (tcs2, []) := by
            rw [mirrorMain, hsub, hidem]
            show Except.ok (setEntry tcs2 d (TgtEntry.tdir subcs), ([] : List FSOp)) = _
            rw [setEntry_of_lookup_eq tcs2 d _ hsub]
          rw [mirrorStep, hsub]
          exact hmain2
    have hstep : StepIdemP e := by
      intro d tcs tcs1 ops tcs2 hwf h hl
      rw [mirrorStep] at h
      split at h
      · next r heqL =>
        split at h
        · next hr =>
          simp only [Except.ok.injEq, Prod.mk.injEq] at h
          obtain ⟨ht, _⟩ := h
          subst ht
          have hcur : lookupEntry tcs2 d = some (.link r) := hl.trans heqL
          rw [mirrorStep, hcur]
          simp [hr]
        · next hr =>
          rw [prependOps.eq_def] at h
          split at h
          · exact Except.noConfusion h
          · next tcsM opsM heqM =>
            simp only [Except.ok.injEq, Prod.mk.injEq] at h
            obtain ⟨ht, _⟩ := h
            subst ht
            exact hmain d (removeEntry tcs d) tcsM opsM tcs2 hwf heqM hl
      · exact hmain d tcs tcs1 ops tcs2 hwf h hl
      · exact hmain d tcs tcs1 ops tcs2 hwf h hl
      · exact hmain d tcs tcs1 ops tcs2 hwf h hl
    exact ⟨hmain, hstep⟩
  · intro children hsize
    have hch : ChildrenIdemP children := by
      intro tcs tcs' ops h1 h2 h
      cases children with
      | nil =>
        rw [mirrorChildren] at h
        simp only [Except.ok.injEq, Prod.mk.injEq] at h
        obtain ⟨ht, _⟩ := h
        subst ht
        rw [mirrorChildren]
      | cons hd0 rest =>
        obtain ⟨d, e⟩ := hd0
        rw [mirrorChildren] at h
        split at h
        · exact Except.noConfusion h
        · next tcs1 ops1 heq1 =>
          split at h
          · exact Except.noConfusion h
          · next tcs3 ops2 heq2 =>
            simp only [Except.ok.injEq, Prod.mk.injEq] at h
            obtain ⟨ht, _⟩ := h
            rw [ht] at heq2
            rw [nodupKeysSrc] at h1
            rw [srcWFList] at h2
            simp only [Bool.and_eq_true, Bool.not_eq_true'] at h1 h2
            obtain ⟨hany, hnodup⟩ := h1
            obtain ⟨hwfe, hwfl⟩ := h2
            have he : sizeOf e < n := by
              simp only [List.cons.sizeOf_spec, Prod.mk.sizeOf_spec] at hsize
              omega
            have hrestn : sizeOf rest < n := by
              simp only [List.cons.sizeOf_spec, Prod.mk.sizeOf_spec] at hsize
              omega
            have hstepe : StepIdemP e := ((IH (sizeOf e) he).1 e le_rfl).2
            have hresti : ChildrenIdemP rest := ((IH (sizeOf rest) hrestn).2 rest le_rfl).1
            have hpres : lookupEntry tcs' d = lookupEntry tcs1 d :=
              mirrorChildren_preserves rest tcs1 tcs' ops2 heq2 d (any_key_eq_false hany)
            have hstep2 : mirrorStep d e tcs' = .ok (tcs', []) :=
              hstepe d tcs tcs1 ops1 tcs' hwfe heq1 hpres
            have hrest2 : mirrorChildren rest tcs' = .ok (tcs', []) :=
              hresti tcs1 tcs' ops2 hnodup hwfl heq2
            simpa using mirrorChildren_cons_eq d e rest tcs' tcs' tcs' [] [] hstep2 hrest2
    have hdir : DirIdemP children := by
      intro t t' ops h1 h2 h
      rcases t with _ | te
      · rw [mirrorDir] at h
        split at h
        · exact Except.noConfusion h
        · next cs' ops0 heq =>
          simp only [Except.ok.injEq, Prod.mk.injEq] at h
          obtain ⟨ht, _⟩ := h
          subst ht
          have hi := hch _ _ _ h1 h2 heq
          rw [mirrorDir, hi]
      · cases te with
        | link r =>
          rw [mirrorDir] at h
          split at h
          · exact Except.noConfusion h
          · next cs' ops0 heq =>
            simp only [Except.ok.injEq, Prod.mk.injEq] at h
            obtain ⟨ht, _⟩ := h
            subst ht
            have hi := hch _ _ _ h1 h2 heq
            rw [mirrorDir, hi]
        | tfile =>
          rw [mirrorDir] at h
          split at h
          · exact Except.noConfusion h
          · next cs' ops0 heq =>
            simp only [Except.ok.injEq, Prod.mk.injEq] at h
            obtain ⟨ht, _⟩ := h
            subst ht
            have hi := hch _ _ _ h1 h2 heq
            rw [mirrorDir, hi]
        | tdir cs0 =>
          rw [mirrorDir] at h
          split at h
          · exact Except.noConfusion h
          · next cs' ops0 heq =>
            simp only [Except.ok.injEq, Prod.mk.injEq] at h
            obtain ⟨ht, _⟩ := h
            subst ht
            have hi := hch _ _ _ h1 h2 heq
            rw [mirrorDir, hi]
    exact ⟨hch, hdir⟩

/-- C7: the symlink mirror is idempotent.  For every readable source
directory (a directory tree with duplicate-free listings, as `os.listdir`
produces) and every target state, if `_symlink_to_database` succeeds and
produces the target state `t'`, then running it again on the same pair
succeeds, performs no mutating filesystem operation (empty operation
log: every entry is already a correct link and is skipped at factory.py
line 279), and leaves the link tree `t'` unchanged. -/
theorem symlink_to_database_idempotent (rp : Nat) (cs : List (String × SrcEntry))
    (t : Option TgtEntry) (t' : TgtEntry) (ops : List FSOp)
    (hwf : srcWF (.sdir rp cs) = true)
    (h : _symlink_to_database (.sdir rp cs) t = some (.ok (t', ops))) :
    _symlink_to_database (.sdir rp cs) (some t') = some (.ok (t', [])) := by
  rw [_symlink_to_database] at h ⊢
  simp only [Option.some.injEq] at h
  rw [srcWF] at hwf
  simp only [Bool.and_eq_true] at hwf
  exact congrArg some (((mirror_idem_aux (sizeOf cs)).2 cs le_rfl).2 t t' ops hwf.1 hwf.2 h)

/-- C7 witness: mirroring a two-level source tree into an empty target
creates the link tree with four filesystem operations; the theorem
applied at this input shows the second run is a no-op. -/
theorem symlink_to_database_idempotent_witness :
    (srcWF (.sdir 0 [("a", .sfile 1), ("b", .sdir 2 [("c", .sfile 3)])]) = true)
    ∧ _symlink_to_database (.sdir 0 [("a", .sfile 1), ("b", .sdir 2 [("c", .sfile 3)])]) none
      = some (.ok (.tdir [("a", .link 1), ("b", .tdir [("c", .link 3)])],
          [.makedirs, .symlink 1, .makedirs, .symlink 3]))
    ∧ _symlink_to_database (.sdir 0 [("a", .sfile 1), ("b", .sdir 2 [("c", .sfile 3)])])
        (some (.tdir [("a", .link 1), ("b", .tdir [("c", .link 3)])]))
      = some (.ok (.tdir [("a", .link 1), ("b", .tdir [("c", .link 3)])], [])) := by
  have h1 : srcWF (.sdir 0 [("a", .sfile 1), ("b", .sdir 2 [("c", .sfile 3)])]) = true := by
    simp [srcWF, nodupKeysSrc, srcWFList]
  have h2 : _symlink_to_database
      (.sdir 0 [("a", .sfile 1), ("b", .sdir 2 [("c", .sfile 3)])]) none
      = some (.ok (.tdir [("a", .link 1), ("b", .tdir [("c", .link 3)])],
          [.makedirs, .symlink 1, .makedirs, .symlink 3])) := by
    simp [_symlink_to_database, mirrorDir, mirrorChildren, mirrorStep, mirrorMain,
      lookupEntry, setEntry, removeEntry]
  exact ⟨h1, h2, symlink_to_database_idempotent 0 _ none _ _ h1 h2⟩

/-- C2 counterexample: a `KeyboardInterrupt` raised while fetching from
the remote tier does **not** abort the resolution.  The handler at
factory.py lines 1244-1245 catches it, logs the warning `"Access to
websource was interrupted."`, and the resolver returns `None` (a soft
miss) — it never escapes to the caller. -/
theorem keyboard_interrupt_absorbed :
    (_get_p_group_from_cache_or_db "workspace" ⟨true⟩ interruptedFetchInput).outcome
      = .notFound
    ∧ (_get_p_group_from_cache_or_db "workspace" ⟨true⟩ interruptedFetchInput).outcome
      ≠ .interrupted
    ∧ "Access to websource was interrupted."
      ∈ (_get_p_group_from_cache_or_db "workspace" ⟨true⟩ interruptedFetchInput).log := by
  refine ⟨by decide, by decide, by decide⟩

/-- C2 (amended): when the first three tiers miss and the remote fetch
is interrupted by `KeyboardInterrupt`, the interrupt is caught and
logged as a warning (factory.py lines 1244-1245) and the resolver
returns `None`, so resolution falls through to from-scratch
construction instead of aborting. -/
theorem keyboard_interrupt_soft_miss (root : String) (opts : CohoOptions)
    (inp : PResolveInput)
    (h1 : inp.inCache = false) (h2 : inp.workspaceReadable = false)
    (h3 : inp.localPresent = false) (h4 : inp.from_scratch = false)
    (h5 : inp.websource = .default) (h6 : opts.use_web = true)
    (h7 : inp.remote_sources ≠ []) (h8 : inp.fetch = .keyboardInterrupt) :
    (_get_p_group_from_cache_or_db root opts inp).outcome = .notFound
    ∧ "Access to websource was interrupted."
      ∈ (_get_p_group_from_cache_or_db root opts inp).log := by
  have h7' : inp.remote_sources.isEmpty = false := by
    cases hv : inp.remote_sources with
    | nil => exact absurd hv h7
    | cons a l => rfl
  unfold _get_p_group_from_cache_or_db from_remote_sources
  simp [h1, h2, h3, h4, h5, h6, h7', h8]

/-- C2 witness: the amended theorem applied at the concrete interrupted
fetch. -/
theorem keyboard_interrupt_soft_miss_witness :
    (interruptedFetchInput.inCache = false
      ∧ interruptedFetchInput.workspaceReadable = false
      ∧ interruptedFetchInput.localPresent = false
      ∧ interruptedFetchInput.from_scratch = false
      ∧ interruptedFetchInput.websource = .default
      ∧ (CohoOptions.mk true).use_web = true
      ∧ interruptedFetchInput.remote_sources ≠ []
      ∧ interruptedFetchInput.fetch = .keyboardInterrupt)
    ∧ ((_get_p_group_from_cache_or_db "workspace" ⟨true⟩ interruptedFetchInput).outcome
        = .notFound
      ∧ "Access to websource was interrupted."
        ∈ (_get_p_group_from_cache_or_db "workspace" ⟨true⟩ interruptedFetchInput).log) :=
  ⟨⟨rfl, rfl, rfl, rfl, rfl, rfl, by decide, rfl⟩,
    keyboard_interrupt_soft_miss "workspace" ⟨true⟩ interruptedFetchInput
      rfl rfl rfl rfl rfl rfl (by decide) rfl⟩

/-- C5: a `from_scratch` resolution request that misses the memory cache
but finds a readable on-disk artifact in the workspace fails with the
stale-data `RuntimeError` (factory.py lines 1201-1202 and 1389-1390),
in both the prime-power and the non-prime-power resolver; the error
message contains the path the caller must remove, and the existing data
is neither loaded nor overwritten. -/
theorem from_scratch_refusal (root : String) (opts : CohoOptions)
    (inp : PResolveInput) (inp2 : NPResolveInput)
    (h1 : inp.from_scratch = true) (h2 : inp.inCache = false)
    (h3 : inp.workspaceReadable = true)
    (h4 : inp2.from_scratch = true) (h5 : inp2.workspaceReadable = true) :
    ((_get_p_group_from_cache_or_db root opts inp).outcome
        = .runtimeError (scratchMsgPGroup root inp.gstem)
      ∧ (∃ a, scratchMsgPGroup root inp.gstem = a ++ (root ++ "/" ++ inp.gstem)))
    ∧ ((_get_non_p_group_from_db root opts inp2).outcome
        = .runtimeError (scratchMsgNonP root inp2.gstem inp2.pr)
      ∧ (∃ a, scratchMsgNonP root inp2.gstem inp2.pr
          = a ++ (root ++ "/H" ++ inp2.gstem ++ "mod" ++ toString inp2.pr ++ ".sobj"))) := by
  refine ⟨⟨?_, ⟨_, rfl⟩⟩, ⟨?_, ⟨_, rfl⟩⟩⟩
  · unfold _get_p_group_from_cache_or_db
    simp [h1, h2, h3]
  · unfold _get_non_p_group_from_db
    simp [h4, h5]

/-- C5 witness: the refusal at a concrete workspace state. -/
theorem from_scratch_refusal_witness :
    (scratchConflictInput.from_scratch = true
      ∧ scratchConflictInput.inCache = false
      ∧ scratchConflictInput.workspaceReadable = true
      ∧ scratchConflictInputNP.from_scratch = true
      ∧ scratchConflictInputNP.workspaceReadable = true)
    ∧ (((_get_p_group_from_cache_or_db "workspace" ⟨true⟩ scratchConflictInput).outcome
        = .runtimeError (scratchMsgPGroup "workspace" scratchConflictInput.gstem)
      ∧ (∃ a, scratchMsgPGroup "workspace" scratchConflictInput.gstem
          = a ++ ("workspace" ++ "/" ++ scratchConflictInput.gstem)))
    ∧ ((_get_non_p_group_from_db "workspace" ⟨true⟩ scratchConflictInputNP).outcome
        = .runtimeError
            (scratchMsgNonP "workspace" scratchConflictInputNP.gstem scratchConflictInputNP.pr)
      ∧ (∃ a, scratchMsgNonP "workspace" scratchConflictInputNP.gstem scratchConflictInputNP.pr
          = a ++ ("workspace" ++ "/H" ++ scratchConflictInputNP.gstem ++ "mod"
              ++ toString scratchConflictInputNP.pr ++ ".sobj")))) :=
  ⟨⟨rfl, rfl, rfl, rfl, rfl⟩,
    from_scratch_refusal "workspace" ⟨true⟩ scratchConflictInput scratchConflictInputNP
      rfl rfl rfl rfl rfl⟩

/-- C8: `from_scratch=True` clears `use_web` in the process-wide option
dictionary (factory.py lines 1727-1728 and 1185-1186); the cleared flag
is what the resolver hands back (the dictionary is global, so the
setting persists after the call returns), and any later
`from_remote_sources` call — for any group — returns `None` without
touching the network while `use_web` is unset (lines 2244-2245). -/
theorem from_scratch_disables_web_globally :
    (∀ opts : CohoOptions, (cohomologyRingCallOptions opts true).use_web = false)
    ∧ (∀ (root : String) (opts : CohoOptions) (inp : PResolveInput),
        inp.from_scratch = true →
        (_get_p_group_from_cache_or_db root opts inp).opts.use_web = false)
    ∧ (∀ (opts : CohoOptions) (rs : List String) (ws : Option String) (f : FetchResult),
        opts.use_web = false → from_remote_sources opts rs ws f = .skipped) := by
  refine ⟨fun opts => rfl, ?_, ?_⟩
  · intro root opts inp hfs
    unfold _get_p_group_from_cache_or_db
    simp only [hfs, if_true]
    repeat' split
    all_goals rfl
  · intro opts rs ws f hw
    unfold from_remote_sources
    simp [hw]

/-- C8 witness: the three parts applied at a concrete option state and
input. -/
theorem from_scratch_disables_web_globally_witness :
    (scratchConflictInput.from_scratch = true
      ∧ (CohoOptions.mk false).use_web = false)
    ∧ (cohomologyRingCallOptions ⟨true⟩ true).use_web = false
    ∧ (_get_p_group_from_cache_or_db "workspace" ⟨true⟩
        scratchConflictInput).opts.use_web = false
    ∧ from_remote_sources ⟨false⟩ ["http://cohomology.uni-jena.de/db/"] none .success
        = .skipped :=
  ⟨⟨rfl, rfl⟩, from_scratch_disables_web_globally.1 ⟨true⟩,
    from_scratch_disables_web_globally.2.1 "workspace" ⟨true⟩
      scratchConflictInput rfl,
    from_scratch_disables_web_globally.2.2 ⟨false⟩
      ["http://cohomology.uni-jena.de/db/"] none .success rfl⟩

/-- C9: resolving a prime-power group of order below 128 forces the
`websource` argument to `False` (factory.py lines 1778-1779), and with
`websource=False` the resolver's web tier (the `elif` at line 1231) is
never entered, so the remote repository is never consulted, whatever
the configured remote sources or the network would answer. -/
theorem small_order_never_consults_web :
    (∀ (root : String) (opts : CohoOptions) (inp : PResolveInput),
      inp.websource = .web_false →
      (_get_p_group_from_cache_or_db root opts inp).webAttempted = false)
    ∧ (∀ (root : String) (opts : CohoOptions) (q : Nat) (inp : PResolveInput),
      q < 128 → (cohomologyRingCallPP root opts q inp).webAttempted = false) := by
  have part1 : ∀ (root : String) (opts : CohoOptions) (inp : PResolveInput),
      inp.websource = WebsourceArg.web_false →
      (_get_p_group_from_cache_or_db root opts inp).webAttempted = false := by
    intro root opts inp hws
    unfold _get_p_group_from_cache_or_db
    simp [hws]
    repeat' split
    all_goals rfl
  refine ⟨part1, ?_⟩
  intro root opts q inp hq
  unfold cohomologyRingCallPP
  simp only [hq, if_true]
  exact part1 root opts _ rfl

/-- C9 witness: the order-8 dihedral group with a configured remote
source and a network that would even succeed — the web is still not
consulted. -/
theorem small_order_never_consults_web_witness :
    ((8 : Nat) < 128)
    ∧ (cohomologyRingCallPP "workspace" ⟨true⟩ 8
        { interruptedFetchInput with fetch := .success }).webAttempted = false :=
  ⟨by decide,
    small_order_never_consults_web.2 "workspace" ⟨true⟩ 8
      { interruptedFetchInput with fetch := .success } (by decide)⟩

/-- C10: an explicitly given group of order 1 (and no `GroupId` hint) is
rejected by argument checking with the `ValueError` of factory.py line
1014, whatever the backend, the `minimal_generators` flag or the key
constructor — so no group key is ever built and no resolution is
attempted for it. -/
theorem trivial_group_rejected (B : GroupBackend) (createKey : GapGroup → GroupKey)
    (g : GapGroup) (minimal_generators : Bool) (horder : g.order = 1) :
    check_arguments B (.gapGroup g) minimal_generators none
      = .error (.valueError "We don't consider the trivial group")
    ∧ cohomologyRingCallCheckPhase B createKey (.gapGroup g) minimal_generators none
      = .error (.valueError "We don't consider the trivial group") := by
  have hc : check_arguments B (.gapGroup g) minimal_generators none
      = .error (.valueError "We don't consider the trivial group") := by
    unfold check_arguments
    simp [horder]
  exact ⟨hc, by unfold cohomologyRingCallCheckPhase; rw [hc]⟩

/-- C10 witness: the trivial group, given explicitly, at a concrete
backend and key constructor. -/
theorem trivial_group_rejected_witness :
    ((GapGroup.mk 1).order = 1)
    ∧ (check_arguments emptyBackend (.gapGroup ⟨1⟩) false none
        = .error (.valueError "We don't consider the trivial group")
      ∧ cohomologyRingCallCheckPhase emptyBackend (fun _ => .addr 1 1) (.gapGroup ⟨1⟩)
          false none
        = .error (.valueError "We don't consider the trivial group")) :=
  ⟨rfl, trivial_group_rejected emptyBackend (fun _ => .addr 1 1) ⟨1⟩ false rfl⟩

/-- C6: a user-supplied intermediate subgroup that passes the
subgroup test but whose index in the target group is divisible by the
required prime is rejected with the `ValueError` of factory.py line
1836, before any construction step runs — the construction continuation
is never invoked, whatever it would do. -/
theorem subgroup_index_divisible_rejected (pr : Nat) (inp : SubgroupCheckInput)
    (hgiven : inp.subgroupGiven = true) (hsub : inp.isSubgroup = true)
    (hdvd : pr ∣ inp.indexGP) :
    ∀ construct : Unit → Except FactoryError Unit,
      nonPrimePowerFromScratch pr inp construct
        = .error (.valueError
            ("The given subgroup must contain a Sylow " ++ toString pr ++ "-subgroup")) := by
  intro construct
  unfold nonPrimePowerFromScratch checkGivenSubgroups
  simp [hgiven, hsub, hdvd]

/-- C6 witness: prime 2, a genuine subgroup of index 6 in the target —
the index is even, so the rejection fires before construction. -/
theorem subgroup_index_divisible_rejected_witness :
    (badSubgroupInput.subgroupGiven = true
      ∧ badSubgroupInput.isSubgroup = true
      ∧ 2 ∣ badSubgroupInput.indexGP)
    ∧ nonPrimePowerFromScratch 2 badSubgroupInput (fun _ => .ok ())
      = .error (.valueError
          ("The given subgroup must contain a Sylow " ++ toString 2 ++ "-subgroup")) :=
  ⟨⟨rfl, rfl, by decide⟩,
    subgroup_index_divisible_rejected 2 badSubgroupInput rfl rfl (by decide)
      (fun _ => .ok ())⟩

/-- C3 (code evaluated at the failing input): for a tower of two groups
the middle-step loop exits at once (the one pair is handled by the final
call at line 1602), but for a tower of three groups the loop condition
`1 <= 1 < 2` holds and `i` is never reassigned, so the loop never
terminates: the trace is `none` for every amount of fuel.  The
documented intent (a tower of four subgroups was used for the third
Conway group) and the spec require one replay per consecutive pair. -/
theorem from_subgroup_tower_three_loops_forever :
    (∀ fuel : Nat, fromSubgroupTowerMiddleSteps 3 fuel = none)
    ∧ (∀ fuel : Nat, fromSubgroupTowerMiddleSteps 2 (fuel + 1) = some []) := by
  constructor
  · intro fuel
    induction fuel with
    | zero => rfl
    | succ fuel ih =>
      unfold fromSubgroupTowerMiddleSteps at ih ⊢
      rw [fromSubgroupTowerWhile]
      simp only [ih]
      norm_num
  · intro fuel
    rw [fromSubgroupTowerMiddleSteps, fromSubgroupTowerWhile]
    norm_num

end PGroupCohomology
